import Mathlib

set_option maxRecDepth 10000

/-!
Verification development for the BioMonkey SRA acquisition pipeline
(`src/sra_downloader.py`, downloader/quality-gate/controller) and its
monitor counters (`src/app.py`).  Paths are modelled as slash-separated
strings, the filesystem as an association list from paths to file
contents, and the external collaborators (HTTP transport, FastQC
inspector) as explicit per-item environments recording what they would
do.  Thread-pool pages are modelled in completion order: the list of
submitted items is given in the order `as_completed` yields them; since
every per-item path is derived from its distinct identifier, the
sequentialised fold is observationally equal to the concurrent run for
the file/counter observables treated here.
-/

namespace BioMonkey

/-- Decides whether the first character list is a prefix of the second. -/
def listPre : List Char → List Char → Bool
  | [], _ => true
  | _ :: _, [] => false
  | a :: as, b :: bs => a == b && listPre as bs

/-- Decides whether the first character list occurs inside the second
(Python's `needle in haystack`). -/
def listSub (needle : List Char) : List Char → Bool
  | [] => needle.isEmpty
  | c :: cs => listPre needle (c :: cs) || listSub needle cs

/-- Python's substring test `pat in s`. -/
def strContains (s pat : String) : Bool := listSub pat.data s.data

/-- Replaces every non-overlapping occurrence of `pat` (left to right),
mirroring Python's `str.replace`; recursion is driven by a fuel equal to
the input length (each step consumes at least one character, so the fuel
never runs out on the call below); an empty pattern is returned
unchanged (the pipeline only ever replaces the literal `".fastq.gz"`). -/
def replaceChars (pat rep : List Char) : Nat → List Char → List Char
  | _, [] => []
  | 0, l => l
  | fuel + 1, c :: cs =>
    if pat ≠ [] ∧ listPre pat (c :: cs) then
      rep ++ replaceChars pat rep fuel (List.drop (pat.length - 1) cs)
    else
      c :: replaceChars pat rep fuel cs

/-- Python's `s.replace(pat, rep)` on our string model. -/
def pyReplace (s pat rep : String) : String :=
  ⟨replaceChars pat.data rep.data s.data.length s.data⟩

/-- Python's `os.path.basename` for the slash-separated relative paths
used by the pipeline. -/
def basename (p : String) : String :=
  ⟨(p.data.reverse.takeWhile (fun c => c ≠ '/')).reverse⟩

/-- Python's `os.path.dirname` for the slash-separated relative paths
used by the pipeline. -/
def dirname (p : String) : String :=
  ⟨((p.data.reverse.dropWhile (fun c => c ≠ '/')).reverse).dropLast⟩

/-- Contents of one file in the modelled filesystem: a downloaded blob
carrying its byte count, or a text file carrying its lines. -/
inductive File where
  | blob : Nat → File
  | text : List String → File
deriving DecidableEq

/-- Lines obtained by reading a file as text (reading a binary blob as
text yields no usable summary lines). -/
def File.linesOf : File → List String
  | File.blob _ => []
  | File.text ls => ls

/-- The filesystem: an association list from paths to file contents. -/
abbrev FS := List (String × File)

/-- Python's `os.path.exists` on the modelled filesystem. -/
def FS.existsPath : FS → String → Bool
  | [], _ => false
  | e :: t, p => e.1 == p || FS.existsPath t p

/-- Reads the file stored at a path, if any. -/
def FS.getFile : FS → String → Option File
  | [], _ => none
  | e :: t, p => if e.1 = p then some e.2 else FS.getFile t p

/-- Python's `os.remove`: drops the file at exactly this path. -/
def FS.removeFile : FS → String → FS
  | [], _ => []
  | e :: t, p => if e.1 = p then FS.removeFile t p else e :: FS.removeFile t p

/-- Writes (or overwrites) the file at a path. -/
def FS.setFile (fs : FS) (p : String) (f : File) : FS :=
  (p, f) :: FS.removeFile fs p

/-- Decides whether a path equals the directory `d` or lies below it. -/
def underDir (d p : String) : Bool :=
  p == d || listPre (d ++ "/").data p.data

/-- Python's `shutil.rmtree(d)`: removes everything at or below `d`. -/
def FS.rmtree : FS → String → FS
  | [], _ => []
  | e :: t, d => if underDir d e.1 then FS.rmtree t d else e :: FS.rmtree t d

/-- Holds when no file at or below directory `d` remains. -/
def FS.cleanUnder : FS → String → Bool
  | [], _ => true
  | e :: t, d => !underDir d e.1 && FS.cleanUnder t d

/-! Module-level constants of `src/sra_downloader.py`. -/

/-- Constant `GZ_TEMP_FOLDER` — download scratch storage. -/
def GZ_TEMP_FOLDER : String := "temp_gz_files"

/-- Constant `FASTQ_TEMP_FOLDER` — the inspector's scratch subdirectory name. -/
def FASTQ_TEMP_FOLDER : String := "fastqc_temp"

/-- Constant `CLEAN_DATASET_FOLDER` — the durable Clean Store. -/
def CLEAN_DATASET_FOLDER : String := "clean_datasets"

/-- The configured `FASTQC_PATH` executable; its value is irrelevant to
the behaviour modelled, only its appearance in the logged command. -/
def fastqc_path : String := "fastqc"

/-- Filename of one identifier's blob, the identifier followed by the
fixed extension. -/
def sraFileName (sraId : String) : String := sraId ++ ".fastq.gz"

/-- Deterministic local path of one identifier's blob: the scratch
directory joined with the blob filename. -/
def sraFilePath (outputDir sraId : String) : String :=
  outputDir ++ "/" ++ sraFileName sraId

/-- What the HTTP transport does for one item: the `content-length`
header the HEAD probe returns (if any), and how the body stream behaves. -/
structure DownloadEnv where
  contentLength : Option Nat
  body : Sum Nat Nat
deriving DecidableEq

/-- Body stream delivered to completion with this many bytes written. -/
def bodyOk (bytes : Nat) : Sum Nat Nat := Sum.inl bytes

/-- Body stream (or the GET itself) raised after writing this many bytes. -/
def bodyErr (written : Nat) : Sum Nat Nat := Sum.inr written

/-- Result of `download_single_sra_file`: the returned
`(sra_id, success)` pair plus the filesystem left behind and the log
messages emitted. -/
structure DLRes where
  sraId : String
  success : Bool
  fs : FS
  log : List String
deriving DecidableEq

/-- Function `download_single_sra_file` (src/sra_downloader.py lines 144–199).
Skips an already-present blob as an immediate success; otherwise takes
the expected size from the HEAD probe (defaulting to 0 when the header
is absent), streams the body to the blob path, fails and removes the
partial file when the stream errors or when the bytes written fall
short of the expected size, and succeeds otherwise. -/
def download_single_sra_file (sraId outputDir : String) (env : DownloadEnv)
    (fs : FS) : DLRes :=
  let sra_file_name := sraFileName sraId
  let sra_file_path := sraFilePath outputDir sraId
  if FS.existsPath fs sra_file_path then
    { sraId := sraId, success := true, fs := fs,
      log := ["File " ++ sra_file_name ++ " already exists, skipping..."] }
  else
    let total_size := env.contentLength.getD 0
    match env.body with
    | Sum.inr written =>
      let fs1 := FS.setFile fs sra_file_path (File.blob written)
      { sraId := sraId, success := false,
        fs := FS.removeFile fs1 sra_file_path,
        log := ["Failed to download " ++ sraId ++ ": stream error"] }
    | Sum.inl bytes =>
      let fs1 := FS.setFile fs sra_file_path (File.blob bytes)
      if bytes < total_size then
        { sraId := sraId, success := false,
          fs := FS.removeFile fs1 sra_file_path,
          log := ["Failed to download " ++ sraId ++ ": Downloaded file size ("
                  ++ toString bytes ++ ") is less than expected ("
                  ++ toString total_size ++ ")"] }
      else
        { sraId := sraId, success := true, fs := fs1,
          log := ["Successfully downloaded " ++ sra_file_name] }

/-- What the external FastQC inspector does for one invocation: the
summary lines it writes (`none` = no summary report appears), any other
files it drops inside its extracted results directory, and whether the
subsequent copy into the Clean Store raises an unexpected error. -/
structure InspectorEnv where
  report : Option (List String)
  extras : List (String × File)
  copyFails : Bool
deriving DecidableEq

/-- Result of the quality gate: the returned verdict, the filesystem
left behind and the log messages emitted. -/
structure GateRes where
  accepted : Bool
  fs : FS
  log : List String
deriving DecidableEq

/-- Function `run_fastqc_and_save_in_clean_dataset_folder_if_all_params_in_summary_txt_file_are_NOT_FAIL`
(src/sra_downloader.py lines 257–319).  Invokes the inspector (modelled
as writing its `extras` and, when produced, `summary.txt` into the
extracted results directory), rejects when the summary file is missing,
rejects on the first summary line containing `FAIL`, otherwise copies
the blob (preserving the original) into the Clean Store and accepts; an
unexpected error while copying is caught and rejects; in every case the
`finally` block removes the extracted results directory. -/
def run_fastqc_gate (fastq_gz_file_path temp_output_dir clean_dataset_dir : String)
    (env : InspectorEnv) (fs : FS) : GateRes :=
  let fastqc_output_dir := temp_output_dir ++ "/" ++ FASTQ_TEMP_FOLDER
  let fastq_filename := basename fastq_gz_file_path
  let fastqc_results_name := pyReplace fastq_filename ".fastq.gz" "_fastqc"
  let fastqc_results_dir := fastqc_output_dir ++ "/" ++ fastqc_results_name
  let summary_file := fastqc_results_dir ++ "/" ++ "summary.txt"
  let runLog := ["Running FastQC: " ++ fastqc_path ++ " " ++ fastq_gz_file_path
                 ++ " -o " ++ fastqc_output_dir ++ " --extract"]
  let fsA := env.extras.foldl
    (fun a e => FS.setFile a (fastqc_results_dir ++ "/" ++ e.1) e.2) fs
  let fs1 := match env.report with
    | none => fsA
    | some ls => FS.setFile fsA summary_file (File.text ls)
  if ¬ FS.existsPath fs1 summary_file then
    { accepted := false, fs := FS.rmtree fs1 fastqc_results_dir,
      log := runLog ++ ["FastQC summary file not found: " ++ summary_file] }
  else
    let lines := ((FS.getFile fs1 summary_file).map File.linesOf).getD []
    match lines.find? (fun l => strContains l "FAIL") with
    | some line =>
      { accepted := false, fs := FS.rmtree fs1 fastqc_results_dir,
        log := runLog ++ ["FastQC found quality issues in " ++ fastq_filename
                          ++ ": " ++ line] }
    | none =>
      match FS.getFile fs1 fastq_gz_file_path with
      | none =>
        { accepted := false, fs := FS.rmtree fs1 fastqc_results_dir,
          log := runLog ++ ["Error running FastQC on " ++ fastq_gz_file_path
                            ++ ": copy error"] }
      | some f =>
        if env.copyFails then
          { accepted := false, fs := FS.rmtree fs1 fastqc_results_dir,
            log := runLog ++ ["Error running FastQC on " ++ fastq_gz_file_path
                              ++ ": copy error"] }
        else
          let clean_file_path := clean_dataset_dir ++ "/" ++ fastq_filename
          { accepted := true,
            fs := FS.rmtree (FS.setFile fs1 clean_file_path f) fastqc_results_dir,
            log := runLog ++ ["File passed quality check and copied to clean dataset folder: "
                              ++ clean_file_path] }

/-- Result of `process_downloaded_file`: the returned flag, the
filesystem left behind, the log messages emitted, and how many times
the FastQC gate was actually invoked (0 or 1). -/
structure ProcRes where
  passed : Bool
  fs : FS
  log : List String
  gateInvocations : Nat
deriving DecidableEq

/-- Function `process_downloaded_file` (src/sra_downloader.py lines 201–231).
Returns immediately when the blob is missing; otherwise routes the blob
through the quality gate and, in its `finally` block, removes the blob
from download scratch storage regardless of outcome. -/
def process_downloaded_file (sraId gz_file_path clean_dataset_dir : String)
    (env : InspectorEnv) (fs : FS) : ProcRes :=
  if ¬ FS.existsPath fs gz_file_path then
    { passed := false, fs := fs, log := [], gateInvocations := 0 }
  else
    let temp_output_dir := dirname gz_file_path
    let g := run_fastqc_gate gz_file_path temp_output_dir clean_dataset_dir env fs
    let log1 := if g.accepted
      then g.log ++ ["File " ++ sraId ++ " passed quality check"]
      else g.log
    { passed := g.accepted, fs := FS.removeFile g.fs gz_file_path,
      log := log1, gateInvocations := 1 }

/-- One submitted candidate of a page: its identifier together with the
behaviour of the transport and of the inspector for this item. -/
structure PItem where
  sraId : String
  denv : DownloadEnv
  ienv : InspectorEnv
deriving DecidableEq

/-- Accumulated observable state while a page drains: filesystem, log,
the `processed_files` list, and counters of successful download
outcomes and of quality-gate invocations. -/
structure PageAcc where
  fs : FS
  log : List String
  processed : List String
  nSuccess : Nat
  nGate : Nat
deriving DecidableEq

/-- One iteration of the `as_completed` loop of
`download_and_process_parallel` (src/sra_downloader.py lines 247–253):
resolve the item's download, and when it succeeded route the blob
through `process_downloaded_file`, recording it in `processed_files`
when it passed. -/
def pageStep (output_dir clean_dataset_dir : String) (a : PageAcc)
    (it : PItem) : PageAcc :=
  let d := download_single_sra_file it.sraId output_dir it.denv a.fs
  if d.success then
    let gz_file_path := sraFilePath output_dir it.sraId
    let p := process_downloaded_file it.sraId gz_file_path clean_dataset_dir it.ienv d.fs
    { fs := p.fs, log := a.log ++ d.log ++ p.log,
      processed := if p.passed then a.processed ++ [it.sraId] else a.processed,
      nSuccess := a.nSuccess + 1, nGate := a.nGate + p.gateInvocations }
  else
    { fs := d.fs, log := a.log ++ d.log, processed := a.processed,
      nSuccess := a.nSuccess, nGate := a.nGate }

/-- Function `download_and_process_parallel` (src/sra_downloader.py lines
233–255), with the item list given in completion order. -/
def download_and_process_parallel (run_info_list : List PItem)
    (output_dir clean_dataset_dir : String) (fs : FS) : PageAcc :=
  run_info_list.foldl (pageStep output_dir clean_dataset_dir)
    { fs := fs, log := [], processed := [], nSuccess := 0, nGate := 0 }

/-! The monitor's counters (src/app.py lines 213–242): `total_checked`
and `current_clean` are derived from the pipeline's log purely by
substring matching on each line. -/

/-- One line of app.py's counting loop (lines 238–242): a line
containing "FastQC found quality issues" increments `total_checked`,
else a line containing "File passed quality check" increments both
`total_checked` and `current_clean`. -/
def appStep (s : Nat × Nat) (line : String) : Nat × Nat :=
  if strContains line "FastQC found quality issues" then (s.1 + 1, s.2)
  else if strContains line "File passed quality check" then (s.1 + 1, s.2 + 1)
  else s

/-- Folds app.py's counting loop over log lines starting from counter
state `s` = `(total_checked, current_clean)`. -/
def appScanFrom (s : Nat × Nat) (lines : List String) : Nat × Nat :=
  lines.foldl appStep s

/-- The monitor counters obtained from a log read from scratch. -/
def appScan (lines : List String) : Nat × Nat := appScanFrom (0, 0) lines

/-! The acquisition controller (`main`, src/sra_downloader.py lines
321–371). -/

/-- The controller's mutable state: the pagination cursor `retstart`,
the accepted counter `clean_datasets_count`, and the shared scratch
filesystem. -/
structure CtrlState where
  retstart : Nat
  clean : Nat
  fs : FS
deriving DecidableEq

/-- What one iteration of the controller's `try` block encounters:
either some unexpected exception (`raiseErr`), or a successful search
returning this page of candidates (already resolved to run info, in
completion order) together with the catalog's total count. -/
inductive IterEffect where
  | raiseErr : IterEffect
  | okPage : List PItem → Nat → IterEffect
deriving DecidableEq

/-- Terminal outcome of the run, classified as the final report does
(lines 369–371): the target was met (`success`) or not (`shortfall`),
carrying the final accepted count. -/
inductive Done where
  | success : Nat → Done
  | shortfall : Nat → Done
deriving DecidableEq

/-- Classifies a terminal accepted count against the target. -/
def finalDone (target clean : Nat) : Done :=
  if target ≤ clean then Done.success clean else Done.shortfall clean

/-- One iteration of the controller's `while` loop body (lines
332–362): an exception leaves the state (cursor included) unchanged and
retries; an empty candidate list breaks; otherwise the page is drained,
the accepted counter advances by the page's processed files, the loop
breaks when the target is reached, the cursor advances by the batch
size 10, and the loop breaks when the cursor reaches the catalog's
total count. `Sum.inl` = keep looping with this state, `Sum.inr` =
terminal. -/
def ctrlStep (target : Nat) (s : CtrlState) (e : IterEffect) :
    Sum CtrlState Done :=
  match e with
  | IterEffect.raiseErr => Sum.inl s
  | IterEffect.okPage page maxCount =>
    if page.isEmpty then Sum.inr (finalDone target s.clean)
    else
      let res := download_and_process_parallel page GZ_TEMP_FOLDER
        CLEAN_DATASET_FOLDER s.fs
      let cleanNext := s.clean + res.processed.length
      if target ≤ cleanNext then Sum.inr (finalDone target cleanNext)
      else if maxCount ≤ s.retstart + 10 then Sum.inr (finalDone target cleanNext)
      else Sum.inl { retstart := s.retstart + 10, clean := cleanNext, fs := res.fs }

/-- Runs the controller loop against a finite trace of iteration
effects: checks the `while` guard, consumes one effect per iteration,
and returns the terminal outcome, or `none` when the trace is exhausted
while the loop is still running. -/
def ctrlRun (target : Nat) (s : CtrlState) : List IterEffect → Option Done
  | [] => if target ≤ s.clean then some (Done.success s.clean) else none
  | e :: rest =>
    if target ≤ s.clean then some (Done.success s.clean)
    else
      match ctrlStep target s e with
      | Sum.inr d => some d
      | Sum.inl s1 => ctrlRun target s1 rest

/-! Derived path helpers, equal by definition to the paths the gate
computes internally, used to state theorems about cleanup and the Clean
Store. -/

/-- The inspector's extracted results directory for a blob path, as the
gate computes it from the blob path and a scratch directory. -/
def gateResultsDir (fastq_gz_file_path temp_output_dir : String) : String :=
  temp_output_dir ++ "/" ++ FASTQ_TEMP_FOLDER ++ "/"
    ++ pyReplace (basename fastq_gz_file_path) ".fastq.gz" "_fastqc"

/-- The inspector's summary report path for a blob path. -/
def gateSummaryFile (fastq_gz_file_path temp_output_dir : String) : String :=
  gateResultsDir fastq_gz_file_path temp_output_dir ++ "/" ++ "summary.txt"

/-- The Clean Store destination of a blob, keyed by its original
filename. -/
def cleanFilePath (clean_dataset_dir fastq_gz_file_path : String) : String :=
  clean_dataset_dir ++ "/" ++ basename fastq_gz_file_path

/-- The extracted results directory for one identifier's blob, as it is
laid out when `process_downloaded_file` derives the scratch directory
from the blob path itself. -/
def resultsDirOf (gz_file_path : String) : String :=
  gateResultsDir gz_file_path (dirname gz_file_path)

/-! Concrete scenario inputs used by the closed parts of the theorems
below. -/

/-- A candidate whose download completes in full and whose inspection
passes every check. -/
def itemAccept (sraId : String) : PItem :=
  { sraId := sraId, denv := { contentLength := some 7, body := bodyOk 7 },
    ienv := { report := some ["PASS Basic Statistics", "PASS Per base sequence quality"],
              extras := [("fastqc_data.txt", File.text ["data"])],
              copyFails := false } }

/-- A candidate whose download is truncated: the probe declares 1000
bytes but only 500 arrive. -/
def itemTruncated (sraId : String) : PItem :=
  { sraId := sraId, denv := { contentLength := some 1000, body := bodyOk 500 },
    ienv := { report := some ["PASS Basic Statistics"], extras := [],
              copyFails := false } }

/-- A candidate whose inspection produces no summary report. -/
def itemNoReport (sraId : String) : PItem :=
  { sraId := sraId, denv := { contentLength := some 7, body := bodyOk 7 },
    ienv := { report := none,
              extras := [("fastqc_data.txt", File.text ["data"])],
              copyFails := false } }

/-- A candidate whose inspection reports a failing check. -/
def itemQualityFail (sraId : String) : PItem :=
  { sraId := sraId, denv := { contentLength := some 7, body := bodyOk 7 },
    ienv := { report := some ["PASS Basic Statistics", "FAIL Per base sequence quality"],
              extras := [("fastqc_data.txt", File.text ["data"])],
              copyFails := false } }

/-- A candidate whose copy into the Clean Store raises unexpectedly. -/
def itemCopyFail (sraId : String) : PItem :=
  { sraId := sraId, denv := { contentLength := some 7, body := bodyOk 7 },
    ienv := { report := some ["PASS Basic Statistics"],
              extras := [("fastqc_data.txt", File.text ["data"])],
              copyFails := true } }

/-- A page of three candidates covering a download failure, a missing
inspector report, and an acceptance. -/
def pageMixed : List PItem :=
  [itemTruncated "SRR1", itemNoReport "SRR2", itemAccept "SRR3"]

/-- A page of five candidates covering every outcome class: download
failure, missing report, quality rejection, copy failure, acceptance. -/
def pageAllOutcomes : List PItem :=
  [itemTruncated "SRR1", itemNoReport "SRR2", itemQualityFail "SRR3",
   itemCopyFail "SRR4", itemAccept "SRR5"]

/-- The first page of the overshoot scenario: ten candidates, all
accepted. -/
def pageTen : List PItem :=
  [itemAccept "A0", itemAccept "A1", itemAccept "A2", itemAccept "A3",
   itemAccept "A4", itemAccept "A5", itemAccept "A6", itemAccept "A7",
   itemAccept "A8", itemAccept "A9"]

/-- A page of five candidates for the exhaustion scenario. -/
def pageFive : List PItem :=
  [itemAccept "B0", itemQualityFail "B1", itemAccept "B2",
   itemTruncated "B3", itemAccept "B4"]

/-! Helper lemmas about the string and filesystem model. -/

theorem listPre_append_self (l m : List Char) : listPre l (l ++ m) = true := by
  induction l with
  | nil => rfl
  | cons a as ih => simp [listPre, ih]

theorem underDir_append_self (d x : String) : underDir d (d ++ "/" ++ x) = true := by
  have h2 : listPre (d ++ "/").data ((d ++ "/").data ++ x.data) = true :=
    listPre_append_self _ _
  have h : (d ++ "/" ++ x).data = (d ++ "/").data ++ x.data := by
    simp [String.data_append]
  simp only [underDir, h, h2, Bool.or_true]

theorem ne_of_underDir_of_not (d a b : String) (ha : underDir d a = true)
    (hb : underDir d b = false) : a ≠ b := by
  intro h
  rw [h, hb] at ha
  cases ha

theorem FS.existsPath_setFile_self (fs : FS) (p : String) (f : File) :
    FS.existsPath (FS.setFile fs p f) p = true := by
  simp [FS.setFile, FS.existsPath]

theorem FS.existsPath_removeFile_self (fs : FS) (p : String) :
    FS.existsPath (FS.removeFile fs p) p = false := by
  induction fs with
  | nil => rfl
  | cons e t ih =>
    by_cases h : e.1 = p <;> simp [FS.removeFile, FS.existsPath, h, ih]

theorem FS.getFile_removeFile_ne (fs : FS) (p q : String) (h : q ≠ p) :
    FS.getFile (FS.removeFile fs p) q = FS.getFile fs q := by
  induction fs with
  | nil => rfl
  | cons e t ih =>
    have hp : p ≠ q := fun hc => h hc.symm
    by_cases hep : e.1 = p
    · have : e.1 ≠ q := by rw [hep]; exact hp
      simp [FS.removeFile, FS.getFile, hep, this, ih, hp]
    · by_cases heq : e.1 = q <;>
        simp [FS.removeFile, FS.getFile, hep, heq, ih, h, hp]

theorem FS.getFile_setFile_self (fs : FS) (p : String) (f : File) :
    FS.getFile (FS.setFile fs p f) p = some f := by
  simp [FS.setFile, FS.getFile]

theorem FS.getFile_setFile_ne (fs : FS) (p q : String) (f : File) (h : q ≠ p) :
    FS.getFile (FS.setFile fs p f) q = FS.getFile fs q := by
  have hp : p ≠ q := fun hc => h hc.symm
  simp [FS.setFile, FS.getFile, hp, FS.getFile_removeFile_ne fs p q h]

theorem FS.existsPath_eq_isSome (fs : FS) (p : String) :
    FS.existsPath fs p = (FS.getFile fs p).isSome := by
  induction fs with
  | nil => rfl
  | cons e t ih =>
    by_cases hep : e.1 = p <;> simp [FS.existsPath, FS.getFile, hep, ih]

theorem FS.getFile_rmtree_of_notUnder (fs : FS) (d p : String)
    (h : underDir d p = false) :
    FS.getFile (FS.rmtree fs d) p = FS.getFile fs p := by
  induction fs with
  | nil => rfl
  | cons e t ih =>
    by_cases hu : underDir d e.1 = true
    · have hne : e.1 ≠ p := ne_of_underDir_of_not d e.1 p hu h
      simp [FS.rmtree, FS.getFile, hu, hne, ih]
    · by_cases heq : e.1 = p <;> simp [FS.rmtree, FS.getFile, hu, heq, ih, h]

theorem FS.cleanUnder_rmtree_self (fs : FS) (d : String) :
    FS.cleanUnder (FS.rmtree fs d) d = true := by
  induction fs with
  | nil => rfl
  | cons e t ih =>
    by_cases hu : underDir d e.1 = true <;> simp [FS.rmtree, FS.cleanUnder, hu, ih]

theorem FS.cleanUnder_removeFile (fs : FS) (d p : String)
    (h : FS.cleanUnder fs d = true) :
    FS.cleanUnder (FS.removeFile fs p) d = true := by
  induction fs with
  | nil => rfl
  | cons e t ih =>
    simp only [FS.cleanUnder, Bool.and_eq_true] at h
    by_cases hep : e.1 = p <;>
      simp [FS.removeFile, FS.cleanUnder, hep, h.1, ih h.2]

theorem FS.getFile_foldl_setFile (l : List (String × File)) (fs : FS)
    (rd q : String) (h : ∀ e ∈ l, rd ++ "/" ++ e.1 ≠ q) :
    FS.getFile
      (l.foldl (fun a e => FS.setFile a (rd ++ "/" ++ e.1) e.2) fs) q
      = FS.getFile fs q := by
  induction l generalizing fs with
  | nil => rfl
  | cons e t ih =>
    have hne : q ≠ rd ++ "/" ++ e.1 := fun hc => h e (by simp) hc.symm
    simp only [List.foldl_cons]
    rw [ih (FS.setFile fs (rd ++ "/" ++ e.1) e.2) (fun x hx => h x (by simp [hx]))]
    exact FS.getFile_setFile_ne fs (rd ++ "/" ++ e.1) q e.2 hne

theorem FS.existsPath_foldl_setFile (l : List (String × File)) (fs : FS)
    (rd q : String) (h : ∀ e ∈ l, rd ++ "/" ++ e.1 ≠ q) :
    FS.existsPath
      (l.foldl (fun a e => FS.setFile a (rd ++ "/" ++ e.1) e.2) fs) q
      = FS.existsPath fs q := by
  rw [FS.existsPath_eq_isSome, FS.existsPath_eq_isSome,
    FS.getFile_foldl_setFile l fs rd q h]

/-! Helper lemmas about the pipeline stages. -/

theorem download_success_exists (sraId outputDir : String) (env : DownloadEnv)
    (fs : FS)
    (h : (download_single_sra_file sraId outputDir env fs).success = true) :
    FS.existsPath (download_single_sra_file sraId outputDir env fs).fs
      (sraFilePath outputDir sraId) = true := by
  by_cases he : FS.existsPath fs (sraFilePath outputDir sraId) = true
  · simp [download_single_sra_file, he]
  · have he2 : FS.existsPath fs (sraFilePath outputDir sraId) = false := by
      simpa using he
    cases hb : env.body with
    | inl bytes =>
      by_cases hlt : bytes < env.contentLength.getD 0
      · exfalso
        simp [download_single_sra_file, he2, hb, hlt] at h
      · simp [download_single_sra_file, he2, hb, hlt, FS.existsPath_setFile_self]
    | inr written =>
      exfalso
      simp [download_single_sra_file, he2, hb] at h

theorem process_gateInvocations (sraId gz cleanDir : String) (env : InspectorEnv)
    (fs : FS) (h : FS.existsPath fs gz = true) :
    (process_downloaded_file sraId gz cleanDir env fs).gateInvocations = 1 := by
  simp [process_downloaded_file, h]

theorem pageStep_gate_eq (o c : String) (a : PageAcc) (it : PItem)
    (h : a.nGate = a.nSuccess) :
    (pageStep o c a it).nGate = (pageStep o c a it).nSuccess := by
  by_cases hd : (download_single_sra_file it.sraId o it.denv a.fs).success = true
  · have hex := download_success_exists it.sraId o it.denv a.fs hd
    simp [pageStep, hd,
      process_gateInvocations it.sraId (sraFilePath o it.sraId) c it.ienv
        (download_single_sra_file it.sraId o it.denv a.fs).fs hex, h]
  · have hd2 : (download_single_sra_file it.sraId o it.denv a.fs).success = false := by
      simpa using hd
    simp [pageStep, hd2, h]

theorem foldl_pageStep_gate_eq (o c : String) (l : List PItem) (a : PageAcc)
    (h : a.nGate = a.nSuccess) :
    (l.foldl (pageStep o c) a).nGate = (l.foldl (pageStep o c) a).nSuccess := by
  induction l generalizing a with
  | nil => exact h
  | cons it t ih =>
    simp only [List.foldl_cons]
    exact ih _ (pageStep_gate_eq o c a it h)

theorem pageStep_processed_le (o c : String) (a : PageAcc) (it : PItem) :
    (pageStep o c a it).processed.length ≤ a.processed.length + 1 := by
  by_cases hd : (download_single_sra_file it.sraId o it.denv a.fs).success = true
  · by_cases hp : (process_downloaded_file it.sraId (sraFilePath o it.sraId) c
        it.ienv (download_single_sra_file it.sraId o it.denv a.fs).fs).passed = true <;>
      simp [pageStep, hd, hp]
  · have hd2 : (download_single_sra_file it.sraId o it.denv a.fs).success = false := by
      simpa using hd
    simp [pageStep, hd2]

theorem foldl_pageStep_processed_le (o c : String) (l : List PItem) (a : PageAcc) :
    (l.foldl (pageStep o c) a).processed.length ≤ a.processed.length + l.length := by
  induction l generalizing a with
  | nil => simp
  | cons it t ih =>
    simp only [List.foldl_cons, List.length_cons]
    have h1 := ih (pageStep o c a it)
    have h2 := pageStep_processed_le o c a it
    omega

theorem dapp_processed_le (l : List PItem) (o c : String) (fs : FS) :
    (download_and_process_parallel l o c fs).processed.length ≤ l.length := by
  have h := foldl_pageStep_processed_le o c l
    { fs := fs, log := [], processed := [], nSuccess := 0, nGate := 0 }
  simpa [download_and_process_parallel] using h

/-! Helper lemmas about the monitor's counting loop. -/

theorem appStep_snd_le (s : Nat × Nat) (line : String) (h : s.2 ≤ s.1) :
    (appStep s line).2 ≤ (appStep s line).1 := by
  unfold appStep
  split
  · simp
    omega
  · split
    · simp
      omega
    · exact h

theorem appScanFrom_snd_le (lines : List String) (s : Nat × Nat) (h : s.2 ≤ s.1) :
    (appScanFrom s lines).2 ≤ (appScanFrom s lines).1 := by
  induction lines generalizing s with
  | nil => exact h
  | cons l t ih =>
    simp only [appScanFrom, List.foldl_cons] at ih ⊢
    exact ih _ (appStep_snd_le s l h)

theorem appStep_fst_mono (s : Nat × Nat) (line : String) :
    s.1 ≤ (appStep s line).1 := by
  unfold appStep
  split
  · simp
  · split
    · simp
    · exact Nat.le_refl _

theorem appScanFrom_fst_mono (lines : List String) (s : Nat × Nat) :
    s.1 ≤ (appScanFrom s lines).1 := by
  induction lines generalizing s with
  | nil => exact Nat.le_refl _
  | cons l t ih =>
    simp only [appScanFrom, List.foldl_cons] at ih ⊢
    exact Nat.le_trans (appStep_fst_mono s l) (ih _)

theorem appScanFrom_append (s : Nat × Nat) (l1 l2 : List String) :
    appScanFrom s (l1 ++ l2) = appScanFrom (appScanFrom s l1) l2 := by
  simp [appScanFrom, List.foldl_append]

/-! Helper lemma about the gate's unconditional cleanup. -/

theorem gate_cleanUnder (gz temp cleanD : String) (env : InspectorEnv) (fs : FS) :
    FS.cleanUnder (run_fastqc_gate gz temp cleanD env fs).fs
      (gateResultsDir gz temp) = true := by
  unfold run_fastqc_gate gateResultsDir
  cases env.report
  all_goals dsimp only
  all_goals repeat first
    | exact FS.cleanUnder_rmtree_self _ _
    | split
    | dsimp only

/-! The claims. -/

/-- Claim C1 counterexample: for a one-item page whose download is truncated,
the page size is 1 but the monitor's checked count derived from the page's
log increases by 0, not 1 — `checkedCount` does not increase by exactly P. -/
theorem c1_checked_increment_counterexample :
    (appScan (download_and_process_parallel [itemTruncated "SRR1"]
      GZ_TEMP_FOLDER CLEAN_DATASET_FOLDER []).log).1
      ≠ [itemTruncated "SRR1"].length := by
  decide

/-- Claim C1 (amended): for every page the number of Quality-Gate (FastQC)
invocations equals the number of successful DownloadOutcomes; but the
checked count does not increase by P per page — the monitor counts only
items whose gate run logs a definite verdict line (a quality-FAIL line or a
passed-and-copied line), so download failures and missing-report items
contribute nothing: the three-item page with one download failure, one
missing report and one acceptance increments the checked count by 1, not 3. -/
theorem c1_gate_invocations_eq_successes :
    (∀ (items : List PItem) (o c : String) (fs : FS),
      (download_and_process_parallel items o c fs).nGate
        = (download_and_process_parallel items o c fs).nSuccess) ∧
    (appScan (download_and_process_parallel pageMixed GZ_TEMP_FOLDER
      CLEAN_DATASET_FOLDER []).log).1 = 1 ∧
    pageMixed.length = 3 := by
  refine ⟨fun items o c fs => ?_, by decide, by decide⟩
  exact foldl_pageStep_gate_eq o c items _ rfl

/-- Claim C2: the accepted count never exceeds the checked count, and the
checked count is monotonically non-decreasing over the run: starting from
any monitor counter state `(total_checked, current_clean)` with
clean ≤ checked, scanning any log preserves clean ≤ checked, and scanning
any further lines never decreases the checked count. -/
theorem c2_accepted_le_checked_and_checked_monotone (s : Nat × Nat)
    (lines more : List String) (h : s.2 ≤ s.1) :
    (appScanFrom s lines).2 ≤ (appScanFrom s lines).1 ∧
    (appScanFrom s lines).1 ≤ (appScanFrom s (lines ++ more)).1 := by
  refine ⟨appScanFrom_snd_le lines s h, ?_⟩
  rw [appScanFrom_append]
  exact appScanFrom_fst_mono more _

/-- Witness for C2: the invariant instantiated at the fresh monitor state and
the concrete mixed page's log. -/
theorem c2_accepted_le_checked_and_checked_monotone_witness :
    (0 : Nat) ≤ 0 ∧
    ((appScanFrom (0, 0) (download_and_process_parallel pageMixed
        GZ_TEMP_FOLDER CLEAN_DATASET_FOLDER []).log).2
      ≤ (appScanFrom (0, 0) (download_and_process_parallel pageMixed
        GZ_TEMP_FOLDER CLEAN_DATASET_FOLDER []).log).1 ∧
     (appScanFrom (0, 0) (download_and_process_parallel pageMixed
        GZ_TEMP_FOLDER CLEAN_DATASET_FOLDER []).log).1
      ≤ (appScanFrom (0, 0) ((download_and_process_parallel pageMixed
        GZ_TEMP_FOLDER CLEAN_DATASET_FOLDER []).log
          ++ ["Failed to download SRR7: stream error"])).1) :=
  ⟨Nat.le_refl 0,
   c2_accepted_le_checked_and_checked_monotone (0, 0)
     (download_and_process_parallel pageMixed GZ_TEMP_FOLDER
       CLEAN_DATASET_FOLDER []).log
     ["Failed to download SRR7: stream error"] (Nat.le_refl 0)⟩

/-- Claim C5: when the blob already exists at the deterministic local path,
the fetch stage succeeds immediately, leaves the filesystem untouched,
fetches no bytes (its result does not depend on the transport environment at
all), and running it a second time is the same idempotent success. -/
theorem c5_fetch_idempotent_skip (sraId outputDir : String) (env : DownloadEnv)
    (fs : FS) (h : FS.existsPath fs (sraFilePath outputDir sraId) = true) :
    (download_single_sra_file sraId outputDir env fs).success = true ∧
    (download_single_sra_file sraId outputDir env fs).fs = fs ∧
    (∀ env2 : DownloadEnv, download_single_sra_file sraId outputDir env2 fs
      = download_single_sra_file sraId outputDir env fs) ∧
    download_single_sra_file sraId outputDir env
        (download_single_sra_file sraId outputDir env fs).fs
      = download_single_sra_file sraId outputDir env fs := by
  simp [download_single_sra_file, h]

/-- Witness for C5: an already-present blob for identifier SRR1 is skipped
as a success. -/
theorem c5_fetch_idempotent_skip_witness :
    FS.existsPath [(sraFilePath GZ_TEMP_FOLDER "SRR1", File.blob 7)]
      (sraFilePath GZ_TEMP_FOLDER "SRR1") = true ∧
    (download_single_sra_file "SRR1" GZ_TEMP_FOLDER
      { contentLength := some 1000, body := bodyErr 3 }
      [(sraFilePath GZ_TEMP_FOLDER "SRR1", File.blob 7)]).success = true :=
  ⟨by decide,
   (c5_fetch_idempotent_skip "SRR1" GZ_TEMP_FOLDER
     { contentLength := some 1000, body := bodyErr 3 }
     [(sraFilePath GZ_TEMP_FOLDER "SRR1", File.blob 7)] (by decide)).1⟩

/-- Claim C6: a download whose actual bytes fall short of the declared
expected size is reported as a failed DownloadOutcome, the partially written
local file is removed, and the item is never routed to the Quality Gate. -/
theorem c6_truncated_download_fails (sraId outputDir : String)
    (env : DownloadEnv) (fs : FS) (n w : Nat)
    (h0 : FS.existsPath fs (sraFilePath outputDir sraId) = false)
    (h1 : env.contentLength = some n) (h2 : env.body = bodyOk w) (h3 : w < n) :
    (download_single_sra_file sraId outputDir env fs).success = false ∧
    FS.existsPath (download_single_sra_file sraId outputDir env fs).fs
      (sraFilePath outputDir sraId) = false ∧
    (∀ (c : String) (a : PageAcc) (ienv : InspectorEnv), a.fs = fs →
      (pageStep outputDir c a
        { sraId := sraId, denv := env, ienv := ienv }).nGate = a.nGate) := by
  have hs : (download_single_sra_file sraId outputDir env fs).success = false := by
    simp [download_single_sra_file, h0, h1, h2, bodyOk, h3]
  refine ⟨hs, ?_, ?_⟩
  · simp [download_single_sra_file, h0, h1, h2, bodyOk, h3,
      FS.existsPath_removeFile_self]
  · intro c a ienv ha
    simp [pageStep, ha, hs]

/-- Witness for C6: declared size 1000, actual bytes 500. -/
theorem c6_truncated_download_fails_witness :
    (FS.existsPath [] (sraFilePath GZ_TEMP_FOLDER "SRR1") = false ∧
     ({ contentLength := some 1000, body := bodyOk 500 } : DownloadEnv).contentLength
       = some 1000 ∧
     ({ contentLength := some 1000, body := bodyOk 500 } : DownloadEnv).body
       = bodyOk 500 ∧
     500 < 1000) ∧
    (download_single_sra_file "SRR1" GZ_TEMP_FOLDER
      { contentLength := some 1000, body := bodyOk 500 } []).success = false :=
  ⟨⟨by decide, rfl, rfl, by decide⟩,
   (c6_truncated_download_fails "SRR1" GZ_TEMP_FOLDER
     { contentLength := some 1000, body := bodyOk 500 } [] 1000 500
     (by decide) rfl rfl (by decide)).1⟩

/-- Claim C10: when the HEAD probe reports no content-length, the expected
size defaults to 0 and the truncation check `actual < expected` can never
trigger: a body stream that completes yields a successful DownloadOutcome
whatever was written — including zero bytes — and the file is kept with the
bytes written. -/
theorem c10_no_content_length_never_truncates (sraId outputDir : String)
    (env : DownloadEnv) (fs : FS) (w : Nat)
    (h0 : FS.existsPath fs (sraFilePath outputDir sraId) = false)
    (h1 : env.contentLength = none) (h2 : env.body = bodyOk w) :
    (download_single_sra_file sraId outputDir env fs).success = true ∧
    FS.getFile (download_single_sra_file sraId outputDir env fs).fs
      (sraFilePath outputDir sraId) = some (File.blob w) := by
  constructor
  · simp [download_single_sra_file, h0, h1, h2, bodyOk]
  · simp [download_single_sra_file, h0, h1, h2, bodyOk,
      FS.getFile_setFile_self]

/-- Claim C3: the stop condition is evaluated only after a page fully drains,
so within one controller step the accepted count grows by at most the page
length (the overshoot is at most one page's worth); in the concrete scenario
with totalAvailable 25, page size 10, target 5 and every first-page item
accepted, the controller reaches Done(success) with acceptedCount 10 after
exactly one page (and reaches no verdict with no page at all). -/
theorem c3_stop_after_page_overshoot (target : Nat) (s : CtrlState)
    (page : List PItem) (maxCount c : Nat)
    (h : ctrlStep target s (IterEffect.okPage page maxCount)
      = Sum.inr (Done.success c)) :
    c ≤ s.clean + page.length ∧
    ctrlRun 5 { retstart := 0, clean := 0, fs := [] }
      [IterEffect.okPage pageTen 25] = some (Done.success 10) ∧
    pageTen.length = 10 ∧
    ctrlRun 5 { retstart := 0, clean := 0, fs := [] } [] = none := by
  refine ⟨?_, by decide, by decide, by decide⟩
  have hle := dapp_processed_le page GZ_TEMP_FOLDER CLEAN_DATASET_FOLDER s.fs
  simp only [ctrlStep] at h
  cases hemp : page.isEmpty with
  | true =>
    rw [hemp] at h
    simp only [if_true] at h
    unfold finalDone at h
    split at h
    · simp only [Sum.inr.injEq, Done.success.injEq] at h
      omega
    · simp at h
  | false =>
    rw [hemp] at h
    simp only [Bool.false_eq_true, if_false] at h
    split at h
    · unfold finalDone at h
      rw [if_pos (by assumption)] at h
      simp only [Sum.inr.injEq, Done.success.injEq] at h
      omega
    · split at h
      · unfold finalDone at h
        rw [if_neg (by assumption)] at h
        simp at h
      · simp at h

/-- Witness for C3: the overshoot bound instantiated at the concrete
ten-accepted-items step, where the accepted count lands at 10 ≤ 0 + 10. -/
theorem c3_stop_after_page_overshoot_witness :
    ctrlStep 5 { retstart := 0, clean := 0, fs := [] }
      (IterEffect.okPage pageTen 25) = Sum.inr (Done.success 10) ∧
    10 ≤ 0 + pageTen.length :=
  ⟨by decide,
   (c3_stop_after_page_overshoot 5 { retstart := 0, clean := 0, fs := [] }
     pageTen 25 10 (by decide)).1⟩

/-- Claim C4: the controller stops in Done(partial) when a page's search
returns an empty candidate list, or when the cursor advanced by the page
size reaches the catalog total before the target is met: with
totalAvailable 5, page size 10 and target 100, any five-item first page ends
the run in Done(partial) after exactly one page whatever its outcomes, and
an empty candidate list ends any unfinished run in Done(partial) at once. -/
theorem c4_exhaustion_ends_in_shortfall (page : List PItem) (fs : FS)
    (h5 : page.length = 5) :
    (∃ c, c ≤ 5 ∧ ctrlRun 100 { retstart := 0, clean := 0, fs := fs }
      [IterEffect.okPage page 5] = some (Done.shortfall c)) ∧
    (∀ (target : Nat) (s : CtrlState) (maxCount : Nat), s.clean < target →
      ctrlStep target s (IterEffect.okPage [] maxCount)
        = Sum.inr (Done.shortfall s.clean)) := by
  have hle := dapp_processed_le page GZ_TEMP_FOLDER CLEAN_DATASET_FOLDER fs
  constructor
  · refine ⟨(download_and_process_parallel page GZ_TEMP_FOLDER
      CLEAN_DATASET_FOLDER fs).processed.length, by omega, ?_⟩
    have hemp : page.isEmpty = false := by
      cases page
      · simp at h5
      · simp
    simp only [ctrlRun]
    rw [if_neg (by omega)]
    simp only [ctrlStep, hemp, Bool.false_eq_true, if_false]
    rw [if_neg (by omega), if_pos (by omega)]
    unfold finalDone
    rw [if_neg (by omega)]
    simp
  · intro target s maxCount hlt
    simp only [ctrlStep, List.isEmpty_nil, if_true]
    unfold finalDone
    rw [if_neg (by omega)]

/-- Witness for C4: a concrete five-item page with mixed outcomes under
totalAvailable 5 and target 100 ends in Done(partial) after one page. -/
theorem c4_exhaustion_ends_in_shortfall_witness :
    pageFive.length = 5 ∧
    (∃ c, c ≤ 5 ∧ ctrlRun 100 { retstart := 0, clean := 0, fs := [] }
      [IterEffect.okPage pageFive 5] = some (Done.shortfall c)) :=
  ⟨by decide, (c4_exhaustion_ends_in_shortfall pageFive [] (by decide)).1⟩

/-- Claim C9: an unexpected error inside the controller's main loop is
absorbed — the controller keeps exactly the same state, page cursor
included, and retries — and a page outcome terminates the run only by
reaching the target (Done(success) with acceptedCount at or above the
target) or by catalog exhaustion (an empty candidate list, or the cursor
advanced by the page size reaching the catalog total). -/
theorem c9_errors_retry_same_cursor_only_exhaustion_or_target_stops :
    (∀ (target : Nat) (s : CtrlState),
      ctrlStep target s IterEffect.raiseErr = Sum.inl s) ∧
    (∀ (target : Nat) (s : CtrlState) (page : List PItem) (maxCount : Nat)
      (d : Done),
      ctrlStep target s (IterEffect.okPage page maxCount) = Sum.inr d →
      (∃ c, d = Done.success c ∧ target ≤ c) ∨ page = [] ∨
        maxCount ≤ s.retstart + 10) := by
  refine ⟨fun target s => rfl, ?_⟩
  intro target s page maxCount d h
  simp only [ctrlStep] at h
  cases hemp : page.isEmpty with
  | true =>
    right
    left
    exact List.isEmpty_iff.mp hemp
  | false =>
    rw [hemp] at h
    simp only [Bool.false_eq_true, if_false] at h
    split at h
    · left
      refine ⟨s.clean + (download_and_process_parallel page GZ_TEMP_FOLDER
        CLEAN_DATASET_FOLDER s.fs).processed.length, ?_, by assumption⟩
      unfold finalDone at h
      rw [if_pos (by assumption)] at h
      exact (Sum.inr.inj h).symm
    · split at h
      · right
        right
        assumption
      · simp at h

/-- Witness for C9: a concrete terminating page step — an empty candidate
list at target 1 — falls under the exhaustion disjunct. -/
theorem c9_errors_retry_witness :
    ctrlStep 1 { retstart := 0, clean := 0, fs := [] }
      (IterEffect.okPage [] 0) = Sum.inr (Done.shortfall 0) ∧
    ((∃ c, Done.shortfall 0 = Done.success c ∧ 1 ≤ c) ∨
      ([] : List PItem) = [] ∨ (0 : Nat) ≤ 0 + 10) :=
  ⟨by decide,
   c9_errors_retry_same_cursor_only_exhaustion_or_target_stops.2 1
     { retstart := 0, clean := 0, fs := [] } [] 0 (Done.shortfall 0)
     (by decide)⟩

/-- Claim C7: every item routed through the Quality Gate has both its
downloaded blob in fetch-stage scratch storage and the inspector's
extracted scratch output directory removed whatever the outcome, and after
the all-outcomes page fully drains, no per-item files remain in download
scratch or inspector scratch for any of that page's identifiers. -/
theorem c7_unconditional_scratch_cleanup (sraId gz cleanDir : String)
    (env : InspectorEnv) (fs : FS) (h : FS.existsPath fs gz = true) :
    (FS.existsPath (process_downloaded_file sraId gz cleanDir env fs).fs gz
        = false ∧
     FS.cleanUnder (process_downloaded_file sraId gz cleanDir env fs).fs
        (resultsDirOf gz) = true) ∧
    (∀ it ∈ pageAllOutcomes,
      FS.existsPath (download_and_process_parallel pageAllOutcomes
        GZ_TEMP_FOLDER CLEAN_DATASET_FOLDER []).fs
        (sraFilePath GZ_TEMP_FOLDER it.sraId) = false ∧
      FS.cleanUnder (download_and_process_parallel pageAllOutcomes
        GZ_TEMP_FOLDER CLEAN_DATASET_FOLDER []).fs
        (resultsDirOf (sraFilePath GZ_TEMP_FOLDER it.sraId)) = true) := by
  refine ⟨⟨?_, ?_⟩, by decide⟩
  · simp [process_downloaded_file, h, FS.existsPath_removeFile_self]
  · have hg := gate_cleanUnder gz (dirname gz) cleanDir env fs
    have hgoal := FS.cleanUnder_removeFile _ (gateResultsDir gz (dirname gz))
      gz hg
    simp only [process_downloaded_file, h, resultsDirOf, not_true,
      if_false, Bool.true_eq_false, reduceIte]
    exact hgoal

/-- Witness for C7: a quality-rejected item's blob is removed from download
scratch after processing. -/
theorem c7_unconditional_scratch_cleanup_witness :
    FS.existsPath [(sraFilePath GZ_TEMP_FOLDER "SRR1", File.blob 7)]
      (sraFilePath GZ_TEMP_FOLDER "SRR1") = true ∧
    FS.existsPath (process_downloaded_file "SRR1"
      (sraFilePath GZ_TEMP_FOLDER "SRR1") CLEAN_DATASET_FOLDER
      (itemQualityFail "SRR1").ienv
      [(sraFilePath GZ_TEMP_FOLDER "SRR1", File.blob 7)]).fs
      (sraFilePath GZ_TEMP_FOLDER "SRR1") = false :=
  ⟨by decide,
   ((c7_unconditional_scratch_cleanup "SRR1"
     (sraFilePath GZ_TEMP_FOLDER "SRR1") CLEAN_DATASET_FOLDER
     (itemQualityFail "SRR1").ienv
     [(sraFilePath GZ_TEMP_FOLDER "SRR1", File.blob 7)] (by decide)).1).1⟩

/-- Claim C8: the Quality Gate returns accepted = false when the inspector's
summary report is missing after invocation, returns accepted = false when
some summary line signals a failing check, and otherwise copies the blob —
preserving the original, not moving it — into the Clean Store under its
original filename and returns accepted = true.  The aliasing hypotheses
(blob and Clean Store path not inside the inspector's scratch directory,
Clean Store path distinct from the blob path, inspector extras not named
like the summary report) hold for the pipeline's actual layout. -/
theorem c8_gate_verdict_cases (gz temp cleanD : String) (env : InspectorEnv)
    (fs : FS)
    (hgz : underDir (gateResultsDir gz temp) gz = false)
    (hclean : underDir (gateResultsDir gz temp) (cleanFilePath cleanD gz)
      = false)
    (hnd : cleanFilePath cleanD gz ≠ gz)
    (hextras : ∀ e ∈ env.extras,
      gateResultsDir gz temp ++ "/" ++ e.1 ≠ gateSummaryFile gz temp) :
    (env.report = none →
      FS.existsPath fs (gateSummaryFile gz temp) = false →
      (run_fastqc_gate gz temp cleanD env fs).accepted = false) ∧
    (∀ ls, env.report = some ls →
      ls.any (fun l => strContains l "FAIL") = true →
      (run_fastqc_gate gz temp cleanD env fs).accepted = false) ∧
    (∀ ls f, env.report = some ls →
      ls.any (fun l => strContains l "FAIL") = false →
      env.copyFails = false → FS.getFile fs gz = some f →
      (run_fastqc_gate gz temp cleanD env fs).accepted = true ∧
      FS.getFile (run_fastqc_gate gz temp cleanD env fs).fs
        (cleanFilePath cleanD gz) = some f ∧
      FS.getFile (run_fastqc_gate gz temp cleanD env fs).fs gz = some f) := by
  have hsumUnder : underDir (gateResultsDir gz temp)
      (gateSummaryFile gz temp) = true := underDir_append_self _ _
  have hsumgz : gz ≠ gateSummaryFile gz temp := fun hc =>
    ne_of_underDir_of_not _ _ _ hsumUnder hgz hc.symm
  have hextrasgz : ∀ e ∈ env.extras,
      gateResultsDir gz temp ++ "/" ++ e.1 ≠ gz := fun e he =>
    ne_of_underDir_of_not _ _ _ (underDir_append_self _ _) hgz
  refine ⟨?_, ?_, ?_⟩
  · intro hrep hsum
    have hA : FS.existsPath
        (env.extras.foldl (fun a e =>
          FS.setFile a (gateResultsDir gz temp ++ "/" ++ e.1) e.2) fs)
        (gateSummaryFile gz temp) = false := by
      rw [FS.existsPath_foldl_setFile env.extras fs _ _ hextras]
      exact hsum
    unfold gateSummaryFile gateResultsDir at hA
    simp only [run_fastqc_gate, hrep]
    simp [hA]
  · intro ls hrep hany
    have hset : FS.existsPath
        (FS.setFile (env.extras.foldl (fun a e =>
          FS.setFile a (gateResultsDir gz temp ++ "/" ++ e.1) e.2) fs)
          (gateSummaryFile gz temp) (File.text ls))
        (gateSummaryFile gz temp) = true := FS.existsPath_setFile_self _ _ _
    have hget : FS.getFile
        (FS.setFile (env.extras.foldl (fun a e =>
          FS.setFile a (gateResultsDir gz temp ++ "/" ++ e.1) e.2) fs)
          (gateSummaryFile gz temp) (File.text ls))
        (gateSummaryFile gz temp) = some (File.text ls) :=
      FS.getFile_setFile_self _ _ _
    unfold gateSummaryFile gateResultsDir at hset hget
    simp only [run_fastqc_gate, hrep]
    simp only [hset, not_true, Bool.true_eq_false, reduceIte, if_false,
      hget, Option.map_some, Option.getD_some, File.linesOf]
    cases hf : ls.find? (fun l => strContains l "FAIL") with
    | none =>
      exfalso
      rw [List.find?_eq_none] at hf
      rw [List.any_eq_true] at hany
      obtain ⟨x, hx, hpx⟩ := hany
      exact hf x hx hpx
    | some line => simp [File.linesOf, hf]
  · intro ls f hrep hany hcopy hblob
    have hgetsum : FS.getFile
        (FS.setFile (env.extras.foldl (fun a e =>
          FS.setFile a (gateResultsDir gz temp ++ "/" ++ e.1) e.2) fs)
          (gateSummaryFile gz temp) (File.text ls))
        (gateSummaryFile gz temp) = some (File.text ls) :=
      FS.getFile_setFile_self _ _ _
    have hsetex : FS.existsPath
        (FS.setFile (env.extras.foldl (fun a e =>
          FS.setFile a (gateResultsDir gz temp ++ "/" ++ e.1) e.2) fs)
          (gateSummaryFile gz temp) (File.text ls))
        (gateSummaryFile gz temp) = true := FS.existsPath_setFile_self _ _ _
    have hfnone : ls.find? (fun l => strContains l "FAIL") = none := by
      rw [List.find?_eq_none]
      intro x hx
      rw [List.any_eq_false] at hany
      simpa using hany x hx
    have hgetgz : FS.getFile
        (FS.setFile (env.extras.foldl (fun a e =>
          FS.setFile a (gateResultsDir gz temp ++ "/" ++ e.1) e.2) fs)
          (gateSummaryFile gz temp) (File.text ls)) gz = some f := by
      rw [FS.getFile_setFile_ne _ _ _ _ hsumgz,
        FS.getFile_foldl_setFile env.extras fs _ _ hextrasgz]
      exact hblob
    have hcleanne : gz ≠ cleanFilePath cleanD gz := fun hc => hnd hc.symm
    have hgetclean : FS.getFile
        (FS.rmtree (FS.setFile
          (FS.setFile (env.extras.foldl (fun a e =>
            FS.setFile a (gateResultsDir gz temp ++ "/" ++ e.1) e.2) fs)
            (gateSummaryFile gz temp) (File.text ls))
          (cleanFilePath cleanD gz) f) (gateResultsDir gz temp))
        (cleanFilePath cleanD gz) = some f := by
      rw [FS.getFile_rmtree_of_notUnder _ _ _ hclean]
      exact FS.getFile_setFile_self _ _ _
    have hgetgz2 : FS.getFile
        (FS.rmtree (FS.setFile
          (FS.setFile (env.extras.foldl (fun a e =>
            FS.setFile a (gateResultsDir gz temp ++ "/" ++ e.1) e.2) fs)
            (gateSummaryFile gz temp) (File.text ls))
          (cleanFilePath cleanD gz) f) (gateResultsDir gz temp)) gz
        = some f := by
      rw [FS.getFile_rmtree_of_notUnder _ _ _ hgz,
        FS.getFile_setFile_ne _ _ _ _ hcleanne]
      exact hgetgz
    unfold gateSummaryFile gateResultsDir at hgetsum hsetex hgetgz
    unfold gateSummaryFile cleanFilePath gateResultsDir at hgetclean hgetgz2
    simp only [run_fastqc_gate, hrep]
    simp [cleanFilePath, hsetex, hgetsum, File.linesOf, hfnone, hgetgz,
      hcopy, hgetclean, hgetgz2]

/-- Witness for C8: for the pipeline's actual layout (blob in
temp_gz_files, Clean Store clean_datasets) and a passing report, the gate
accepts and both the Clean Store copy and the original blob carry the
downloaded content. -/
theorem c8_gate_verdict_cases_witness :
    (underDir (gateResultsDir (sraFilePath GZ_TEMP_FOLDER "SRR1")
        GZ_TEMP_FOLDER) (sraFilePath GZ_TEMP_FOLDER "SRR1") = false ∧
     underDir (gateResultsDir (sraFilePath GZ_TEMP_FOLDER "SRR1")
        GZ_TEMP_FOLDER)
        (cleanFilePath CLEAN_DATASET_FOLDER
          (sraFilePath GZ_TEMP_FOLDER "SRR1")) = false ∧
     cleanFilePath CLEAN_DATASET_FOLDER (sraFilePath GZ_TEMP_FOLDER "SRR1")
        ≠ sraFilePath GZ_TEMP_FOLDER "SRR1") ∧
    (run_fastqc_gate (sraFilePath GZ_TEMP_FOLDER "SRR1") GZ_TEMP_FOLDER
      CLEAN_DATASET_FOLDER
      { report := some ["PASS Basic Statistics"],
        extras := [("fastqc_data.txt", File.text ["data"])],
        copyFails := false }
      [(sraFilePath GZ_TEMP_FOLDER "SRR1", File.blob 7)]).accepted = true :=
  ⟨⟨by decide, by decide, by decide⟩,
   ((c8_gate_verdict_cases (sraFilePath GZ_TEMP_FOLDER "SRR1")
      GZ_TEMP_FOLDER CLEAN_DATASET_FOLDER
      { report := some ["PASS Basic Statistics"],
        extras := [("fastqc_data.txt", File.text ["data"])],
        copyFails := false }
      [(sraFilePath GZ_TEMP_FOLDER "SRR1", File.blob 7)]
      (by decide) (by decide) (by decide) (by decide)).2.2
     ["PASS Basic Statistics"] (File.blob 7) rfl (by decide) rfl
     (by decide)).1⟩

/-- Witness for C10: a completed download that wrote zero bytes with no
declared content-length is reported successful. -/
theorem c10_no_content_length_never_truncates_witness :
    (FS.existsPath [] (sraFilePath GZ_TEMP_FOLDER "SRR1") = false ∧
     ({ contentLength := none, body := bodyOk 0 } : DownloadEnv).contentLength
       = none ∧
     ({ contentLength := none, body := bodyOk 0 } : DownloadEnv).body
       = bodyOk 0) ∧
    (download_single_sra_file "SRR1" GZ_TEMP_FOLDER
      { contentLength := none, body := bodyOk 0 } []).success = true :=
  ⟨⟨by decide, rfl, rfl⟩,
   (c10_no_content_length_never_truncates "SRR1" GZ_TEMP_FOLDER
     { contentLength := none, body := bodyOk 0 } [] 0
     (by decide) rfl rfl).1⟩

end BioMonkey
